import Mathlib

/-!
Verification of the orchestration layer of the cryptoran repository
(src/cryptoran/main module, class Cryptoran).  The pure string and
integer manipulations of that module are embedded as executable Lean
definitions; file handles are replaced by the list of lines (or the
character content) of the file, and the file system by the list of
existing file names.  Python exceptions are modelled with Except, and
Python process exit with an explicit state field.
-/

namespace Cryptoran

/-- Python exceptions raised by the embedded fragments. -/
inductive PyError
  | valueError
  | typeError
deriving DecidableEq

/-- A Python value as it flows through the key-loading code: either an
integer parsed from a hex line, a string (for instance a dict key), or None. -/
inductive PyValue
  | int (n : Nat)
  | str (s : String)
  | pyNone
deriving DecidableEq

/-- The characters of string.punctuation from the Python standard library,
used by the translation table built in the key reading routine. -/
def punctuationChars : List Char :=
  "!\"#$%&\x27()*+,-./:;<=>?@[\\]^_\x60\x7b|\x7d~".toList

/-- The characters of string.whitespace from the Python standard library. -/
def whitespaceChars : List Char :=
  " \t\n\r\x0b\x0c".toList

def isPyWhitespace (c : Char) : Bool := whitespaceChars.contains c

def isPyPunctuation (c : Char) : Bool := punctuationChars.contains c

/-- Strip leading and trailing Python whitespace from a character list. -/
def trimWs (cs : List Char) : List Char :=
  ((cs.dropWhile isPyWhitespace).reverse.dropWhile isPyWhitespace).reverse

def hexCharValue (c : Char) : Option Nat :=
  if '0' ≤ c ∧ c ≤ '9' then Option.some (c.toNat - '0'.toNat)
  else if 'a' ≤ c ∧ c ≤ 'f' then Option.some (c.toNat - 'a'.toNat + 10)
  else if 'A' ≤ c ∧ c ≤ 'F' then Option.some (c.toNat - 'A'.toNat + 10)
  else Option.none

def decCharValue (c : Char) : Option Nat :=
  if '0' ≤ c ∧ c ≤ '9' then Option.some (c.toNat - '0'.toNat) else Option.none

/-- Fold a digit list into a number; Option.none when a character is not a
digit of the base. -/
def foldDigits (digitValue : Char → Option Nat) (base : Nat) :
    List Char → Nat → Option Nat
  | [], acc => Option.some acc
  | c :: rest, acc =>
    match digitValue c with
    | Option.some v => foldDigits digitValue base rest (acc * base + v)
    | Option.none => Option.none

def dropHexMark : List Char → List Char
  | '0' :: 'x' :: rest => rest
  | '0' :: 'X' :: rest => rest
  | cs => cs

def dropPlusSign : List Char → List Char
  | '+' :: rest => rest
  | cs => cs

/-- Python int(s, 16) on the inputs this program produces and reads:
surrounding whitespace is stripped, an optional plus sign and an optional
0x or 0X mark are accepted, and at least one hexadecimal digit must remain.
(Negative literals and underscore digit separators never occur in the files
this program writes and are not modelled.)  Option.none models ValueError. -/
def parseHexNatL (cs : List Char) : Option Nat :=
  match dropHexMark (dropPlusSign (trimWs cs)) with
  | [] => Option.none
  | ds => foldDigits hexCharValue 16 ds 0

/-- Python int(s) under the same conventions, base 10. -/
def parseDecNatL (cs : List Char) : Option Nat :=
  match dropPlusSign (trimWs cs) with
  | [] => Option.none
  | ds => foldDigits decCharValue 10 ds 0

/-- Python str.split(sep) for a one-character separator: splits at every
occurrence, keeping empty sections, and always returns a non-empty list. -/
def splitCharAux (sep : Char) : List Char → List Char → List (List Char)
  | [], acc => [acc.reverse]
  | c :: rest, acc =>
    if c = sep then acc.reverse :: splitCharAux sep rest []
    else splitCharAux sep rest (c :: acc)

def splitChar (sep : Char) (cs : List Char) : List (List Char) :=
  splitCharAux sep cs []

/-- Python sep.join for a one-character separator. -/
def joinWithChar (sep : Char) : List (List Char) → List Char
  | [] => []
  | [x] => x
  | x :: y :: rest => x ++ sep :: joinWithChar sep (y :: rest)

/-- Python substring containment (needle in haystack). -/
def containsSeq (needle : List Char) : List Char → Bool
  | [] => needle.isEmpty
  | c :: rest => needle.isPrefixOf (c :: rest) || containsSeq needle rest

/-- The double translate call of the key reading routine: remove every
punctuation character, then every whitespace character. -/
def stripPunctWs (line : String) : String :=
  String.mk (line.toList.filter
    (fun c => !(isPyPunctuation c) && !(isPyWhitespace c)))

/-- Test on the first character of a line (lines produced by file iteration
are never empty, they retain at least the newline). -/
def lineStartsWith (c : Char) (line : String) : Bool :=
  match line.toList with
  | [] => false
  | c0 :: _ => c0 = c

/-- The key reading routine: iterate over the lines of the key file, skip
comment lines starting with a hash, and on a section line starting with a
dash that does not contain END, strip punctuation and whitespace to obtain
the field name and parse the following line as a hexadecimal integer.
The result dict is modelled as the association list in insertion order
(field names in these files are distinct).  A missing or non-hexadecimal
value line raises ValueError. -/
def readKey : List String → Except PyError (List (String × Nat))
  | [] => Except.ok []
  | line :: rest =>
    if lineStartsWith '#' line then readKey rest
    else if lineStartsWith '-' line then
      if containsSeq ("END".toList) line.toList then readKey rest
      else
        match rest with
        | [] => Except.error PyError.valueError
        | next :: rest2 =>
          match parseHexNatL next.toList with
          | Option.none => Except.error PyError.valueError
          | Option.some v =>
            match readKey rest2 with
            | Except.ok tail => Except.ok ((stripPunctWs line, v) :: tail)
            | Except.error e => Except.error e
    else readKey rest

/-- Python tuple unpacking of a dict into two targets, as in the statement
that assigns the result of the key reading routine to the pair (key, iv):
iterating a dict yields its KEYS, so the two targets receive the two field
name strings; any other dict size raises ValueError. -/
def unpackPair (d : List (String × Nat)) : Except PyError (PyValue × PyValue) :=
  match d with
  | [a, b] => Except.ok (PyValue.str a.1, PyValue.str b.1)
  | _ => Except.error PyError.valueError

/-- The key-loading step at the start of the block-cipher operation: when a
key file argument is given, the file is parsed and the result is unpacked
into (key, iv); otherwise both stay None.  These two values are what is
later handed to the cipher constructor. -/
def blockcipherKeyIv (kArg : Option (List String)) :
    Except PyError (PyValue × PyValue) :=
  match kArg with
  | Option.none => Except.ok (PyValue.pyNone, PyValue.pyNone)
  | Option.some lines =>
    match readKey lines with
    | Except.ok d => unpackPair d
    | Except.error e => Except.error e

/-- Observable outcome of the key-loading step.  The handler that would
report key file corruption with a displayed message exists in the source
only as commented-out lines around the call, so a parse failure is an
uncaught exception; the reported-corruption outcome is never produced. -/
inductive KeyLoadOutcome
  | loaded (key iv : PyValue)
  | uncaughtValueError
  | reportedKeyfileCorruption
deriving DecidableEq

def blockcipherKeyLoadStep (kArg : Option (List String)) : KeyLoadOutcome :=
  match blockcipherKeyIv kArg with
  | Except.ok (k, iv) => KeyLoadOutcome.loaded k iv
  | Except.error _ => KeyLoadOutcome.uncaughtValueError

/-- A Python function signature: positional parameter names (the bound self
excluded) and how many trailing parameters carry defaults. -/
structure PyFunction where
  params : List String
  numDefaults : Nat
deriving DecidableEq

/-- Binding check of a positional call: raises TypeError unless the number
of supplied arguments covers every parameter without a default and does not
exceed the parameter count. -/
def callPyFunction (f : PyFunction) (numArgs : Nat) : Except PyError Unit :=
  if f.params.length - f.numDefaults ≤ numArgs ∧ numArgs ≤ f.params.length
  then Except.ok () else Except.error PyError.typeError

/-- Signature of the key writing routine: filename, extension, key. -/
def writeKeyFun : PyFunction := ⟨["filename", "extension", "key"], 0⟩

/-- Signature of the raw writing routine: message, filename, extension. -/
def writeRawFun : PyFunction := ⟨["message", "filename", "extension"], 0⟩

/-- Arguments supplied at the encryption call site of the key writing
routine inside the block-cipher operation: the key file name and the result
of getKeys, two arguments. -/
def blockcipherEncWriteKeyArgCount : Nat := 2

/-- Arguments supplied at the decryption call site of the raw writing
routine inside the block-cipher operation: the decrypted data and the
output file name, two arguments. -/
def blockcipherDecWriteRawArgCount : Nat := 2

/-- Content written by the block writing routine: for each block the Python
hex rendering with the 0x mark sliced off, concatenated with no padding and
no separator.  Nat.toDigits 16 matches hex: lowercase digits, no leading
zeros, a single 0 for zero. -/
def writeBlocksContent (blocks : List Nat) : List Char :=
  (blocks.map (fun b => Nat.toDigits 16 b)).flatten

/-- The read loop of the block reading routine, reading blocksize characters
at a time until the read comes back empty.  The fuel argument bounds the
iterations; each iteration with positive blocksize consumes at least one
character, so fuel equal to the content length is always enough (a read of
zero characters comes back empty at once and the loop body never runs). -/
def chunkCharsAux (blocksize : Nat) : Nat → List Char → List (List Char)
  | 0, _ => []
  | _ + 1, [] => []
  | fuel + 1, c :: rest =>
    match blocksize with
    | 0 => []
    | b + 1 => (c :: rest.take b) :: chunkCharsAux blocksize fuel (rest.drop b)

def chunkChars (blocksize : Nat) (cs : List Char) : List (List Char) :=
  chunkCharsAux blocksize cs.length cs

/-- Each chunk is handed to int(chunk, 16). -/
def parseChunks : List (List Char) → Except PyError (List Nat)
  | [] => Except.ok []
  | c :: rest =>
    match parseHexNatL c with
    | Option.none => Except.error PyError.valueError
    | Option.some v =>
      match parseChunks rest with
      | Except.ok vs => Except.ok (v :: vs)
      | Except.error e => Except.error e

/-- The block reading routine applied to the character content of a file. -/
def readBlocksContent (blocksize : Nat) (cs : List Char) :
    Except PyError (List Nat) :=
  parseChunks (chunkChars blocksize cs)

/-- The block-cipher commands reaching the shared operation helper. -/
inductive BlockCipherCmd
  | aes
  | des
deriving DecidableEq

/-- The chunk size handed to the block reading routine in the decryption
branch of the block-cipher operation: the source passes the literal 32 for
both ciphers (the call carries an error remark in a source comment). -/
def readBlocksChunkSize (_cmd : BlockCipherCmd) : Nat := 32

/-- Modelled from the spec: the cipher block sizes (AES 128 bits, DES 64
bits); the blockcipher package defining the two cipher classes is not part
of the sources under review. -/
def cipherBlockBits : BlockCipherCmd → Nat
  | BlockCipherCmd.aes => 128
  | BlockCipherCmd.des => 64

/-- A cipher block rendered in hexadecimal occupies blockBits / 4 digits. -/
def cipherBlockHexDigits (c : BlockCipherCmd) : Nat := cipherBlockBits c / 4

/-- The attributes defined on the Cryptoran class (none of the six accepted
commands collides with an attribute inherited from object, so membership
here decides the hasattr test of the dispatcher for them). -/
def cryptoranMethods : List String :=
  ["_openFileRead", "_removeExtension", "_openFileWrite", "_readRaw",
   "_readBlocks", "_readSig", "_writeSig", "_writeKey", "_readKey",
   "_writeBlocks", "_writeRaw", "_displayError", "_blockcipherOperation",
   "_pkcOperation", "aes", "des", "rsasig", "rsa", "elgamal"]

/-- The command choices accepted by the top-level argument parser. -/
def allModules : List String := ["aes", "des", "rsa", "elgamal", "dh", "rsasig"]

/-- Outcome of the constructor dispatch: either the handler of the same
name is looked up and invoked, or the unrecognized-command error path runs
(which prints and exits). -/
inductive DispatchResult
  | invoked (handler : String)
  | unrecognizedCommandError
deriving DecidableEq

def dispatchCommand (cmd : String) : DispatchResult :=
  if cryptoranMethods.contains cmd then DispatchResult.invoked cmd
  else DispatchResult.unrecognizedCommandError

/-- Where the public-key encryption branch takes its key from: a supplied
public key file, or generation; the generation call in the source is
generateKeypair with the literal 512, regardless of the prime-length
option (which is accepted by the parser but never read on this path). -/
inductive PkcKeySource
  | generated (bitLength : Nat)
  | fromPublicKeyFile
deriving DecidableEq

def pkcEncryptKeySource (pubGiven : Bool) (_primeLength : Option Nat) :
    PkcKeySource :=
  if pubGiven then PkcKeySource.fromPublicKeyFile
  else PkcKeySource.generated 512

/-- Help text of the prime-length option, verbatim from the source. -/
def primeLengthHelp : String :=
  "prime length  in bits for key generation - used if public key is not provided, defaults to 2048"

/-- Process state: lines printed so far and the exit code once exit ran. -/
structure ProcState where
  printed : List String
  exitedWith : Option Nat
deriving DecidableEq

def initialProcState : ProcState := ⟨[], Option.none⟩

/-- The noOperation entry of the errors table, verbatim from the source. -/
def errorNoOperation : String := "Encryption or decryption operation not specified!"

/-- The error display helper: prints the error, prints a usage hint when a
command name was passed, and then unconditionally calls exit(1). -/
def displayError (st : ProcState) (error : String) (command : Option String) :
    ProcState :=
  ⟨(st.printed ++ ["Error: " ++ error]) ++
      (match command with
       | Option.some c => ["cryptoran " ++ c ++ " -h for more info"]
       | Option.none => []),
    Option.some 1⟩

/-- Result of running the missing-operation branch of the block-cipher
operation: the process state after the error display, and whether control
went on to the key-reading statements written after the call. -/
structure MissingOpBranchResult where
  finalState : ProcState
  keyReadReached : Bool
deriving DecidableEq

/-- The branch taken when neither encryption nor decryption was requested:
the error display runs first; the key-reading statements that follow it in
the source execute only if the display returns with the process still
alive. -/
def blockcipherMissingOpBranch (commandName : String) : MissingOpBranchResult :=
  let st := displayError initialProcState errorNoOperation
    (Option.some commandName)
  if st.exitedWith.isSome then ⟨st, false⟩ else ⟨st, true⟩

/-- Python truthiness of an optional integer: None and 0 are falsy. -/
def pyTruthyNat : Option Nat → Bool
  | Option.none => false
  | Option.some n => decide (n ≠ 0)

/-- The signing branch generates keys when not all of the encryption
exponent, modulus and decryption exponent are truthy. -/
def rsasigSignNeedsKeygen (encExp modulus decExp : Option Nat) : Bool :=
  !(pyTruthyNat encExp && pyTruthyNat modulus && pyTruthyNat decExp)

/-- The message printed before key generation, verbatim from the source. -/
def rsasigKeygenMessage : String := "Generating 1024 bit RSA keys..."

/-- The bit length named by that message. -/
def rsasigAnnouncedBitLength : Nat := 1024

/-- The RSAsig constructor call of the signature command: the signer keeps
the two exponents, the modulus, and the key bit length, which the source
passes as the literal 2048 (per the spec the fourth constructor argument of
the RSAsig class, whose package is not part of the sources under review,
is the key generation bit length). -/
structure RSAsigCtor where
  encExp : Option Nat
  decExp : Option Nat
  modulus : Option Nat
  bitLength : Nat
deriving DecidableEq

def rsasigMakeSigner (encExp decExp modulus : Option Nat) : RSAsigCtor :=
  ⟨encExp, decExp, modulus, 2048⟩

/-- The extension removal helper: join with dots every dot-separated
section but the last. -/
def removeExtension (filename : String) : String :=
  String.mk (joinWithChar '.' ((splitChar '.' filename.toList).dropLast))

/-- One iteration of the fresh-name loop of the file-for-writing opener:
strip the extension, parse the text after the last underscore as an
integer (ValueError, hence Option.none, when it is not one), and rebuild
the name from all but the last character, the incremented counter, and the
extension. -/
def openFileWriteStep (extension : String) (fn : String) : Option String :=
  let f1 := removeExtension fn
  match parseDecNatL ((splitChar '_' f1.toList).getLastD []) with
  | Option.none => Option.none
  | Option.some n =>
    Option.some (String.mk (f1.toList.dropLast) ++ Nat.repr (n + 1) ++ extension)

/-- The while loop of the opener: as long as the candidate names an
existing file, transform it; open (return) it as soon as it does not.
Option.none covers both the ValueError of a failed transform and exhausted
fuel; no file is opened in either case. -/
def openFileWriteLoop (existing : List String) (extension : String) :
    Nat → String → Option String
  | 0, _ => Option.none
  | fuel + 1, fn =>
    if existing.contains fn then
      match openFileWriteStep extension fn with
      | Option.none => Option.none
      | Option.some fn2 => openFileWriteLoop existing extension fuel fn2
    else Option.some fn

/-- The file-for-writing opener: append the extension, move to the first
numbered candidate when the plain name already exists, then run the loop.
The returned name is the one opened with mode w; existing is the set of
file names present on disk. -/
def openFileWrite (existing : List String) (filename extension : String)
    (fuel : Nat) : Option String :=
  openFileWriteLoop existing extension fuel
    (if existing.contains (filename ++ "." ++ extension) then
       removeExtension (filename ++ "." ++ extension) ++ "_1." ++ extension
     else filename ++ "." ++ extension)

/-- A well-formed key file holding an AES key and IV, in the exact shape
the key writing routine produces (each value line is the Python hex
rendering of the value). -/
def demoKeyFileLines : List String :=
  ["---- AES_KEY----\n", "0xdeadbeef\n", "---- AES_IV----\n", "0x42\n"]

/-- The same key file with a corrupt (non-hexadecimal) value line. -/
def corruptKeyFileLines : List String :=
  ["---- AES_KEY----\n", "zzzz\n", "---- AES_IV----\n", "0x42\n"]

/-- Claim C1: with a key file supplied, the key and IV handed to the cipher
constructor would be the BigUnsignedInteger values of the parsed mapping.
In the code the dict returned by the key reading routine is unpacked
directly into the pair (key, iv); iterating a Python dict yields its keys,
so the cipher constructor receives the descriptive field-name strings
(here AESKEY and AESIV), not the values 0xdeadbeef and 0x42. -/
theorem c1_key_iv_are_field_names :
    blockcipherKeyIv (Option.some demoKeyFileLines)
        = Except.ok (PyValue.str "AESKEY", PyValue.str "AESIV")
    ∧ PyValue.str "AESKEY" ≠ PyValue.int 3735928559
    ∧ PyValue.str "AESIV" ≠ PyValue.int 66 := by
  refine ⟨rfl, by decide, by decide⟩

/-- Claim C2: the persistence calls of the block-cipher operation would
succeed with the arguments supplied at the call sites.  The encryption
site passes two arguments to the three-parameter key writing routine, and
the decryption site passes two arguments to the three-parameter raw
writing routine; neither parameter has a default, so both calls raise
TypeError and nothing is persisted. -/
theorem c2_write_calls_raise_typeerror :
    callPyFunction writeKeyFun blockcipherEncWriteKeyArgCount
        = Except.error PyError.typeError
    ∧ callPyFunction writeRawFun blockcipherDecWriteRawArgCount
        = Except.error PyError.typeError := by
  exact ⟨rfl, rfl⟩

/-- Claim C3: writing a block list and reading it back at chunk size 32
would return the original list.  The block writing routine emits the hex
digits without padding to 32 digits, so for the list [1, 2] the file
content is the two characters 1 and 2, and reading at chunk size 32 parses
them as the single block 0x12 = 18 instead of the original two blocks. -/
theorem c3_roundtrip_loses_short_blocks :
    readBlocksContent 32 (writeBlocksContent [1, 2]) = Except.ok [18]
    ∧ ([18] : List Nat) ≠ [1, 2] := by
  exact ⟨rfl, by decide⟩

/-- Claim C4: the chunk size passed to the block reading routine would
equal the selected cipher block size in hex digits.  The source passes the
literal 32 for both ciphers (the call site carries an error remark), while
a DES block of 64 bits is 16 hex digits. -/
theorem c4_des_chunk_size_wrong :
    readBlocksChunkSize BlockCipherCmd.des = 32
    ∧ cipherBlockHexDigits BlockCipherCmd.des = 16
    ∧ readBlocksChunkSize BlockCipherCmd.des
        ≠ cipherBlockHexDigits BlockCipherCmd.des := by
  refine ⟨rfl, rfl, by decide⟩

/-- Claim C5: every accepted command string would resolve to a handler of
the same name on the Cryptoran class.  The dh command is among the parser
choices, but the class defines no dh attribute, so the hasattr test fails
and the unrecognized-command error path runs instead of a Diffie-Hellman
handler (for contrast, aes dispatches to its handler). -/
theorem c5_dh_has_no_handler :
    allModules.contains "dh" = true
    ∧ dispatchCommand "dh" = DispatchResult.unrecognizedCommandError
    ∧ dispatchCommand "aes" = DispatchResult.invoked "aes" := by
  refine ⟨by decide, rfl, rfl⟩

/-- Claim C6: RSA key generation without a supplied public key would use
the requested prime-length option, defaulting to 2048 as its own help text
announces.  The source calls generateKeypair with the literal 512 on this
path, ignoring the option entirely. -/
theorem c6_keygen_bitlength_hardcoded :
    pkcEncryptKeySource false Option.none = PkcKeySource.generated 512
    ∧ pkcEncryptKeySource false (Option.some 1024) = PkcKeySource.generated 512
    ∧ PkcKeySource.generated 512 ≠ PkcKeySource.generated 2048
    ∧ PkcKeySource.generated 512 ≠ PkcKeySource.generated 1024
    ∧ containsSeq ("2048".toList) (primeLengthHelp.toList) = true := by
  refine ⟨rfl, rfl, by decide, by decide, by decide⟩

/-- Claim C7: a malformed hexadecimal value line in a key file would be
detected and reported before the cipher operation runs.  The try block that
would map the ValueError to the keyfile corruption message is commented out
in the source, so the parse failure propagates as an uncaught exception. -/
theorem c7_malformed_hex_uncaught :
    blockcipherKeyLoadStep (Option.some corruptKeyFileLines)
        = KeyLoadOutcome.uncaughtValueError
    ∧ blockcipherKeyLoadStep (Option.some corruptKeyFileLines)
        ≠ KeyLoadOutcome.reportedKeyfileCorruption := by
  exact ⟨rfl, by decide⟩

/-- Claim C8 counterexample: at the path the claim cites, the
missing-operation error in the block-cipher flow, the displayed error does
halt the caller: the process has exited with code 1 and the key-reading
statements after the call are never reached. -/
theorem c8_missing_op_statements_dead :
    (blockcipherMissingOpBranch "aes").keyReadReached = false
    ∧ (blockcipherMissingOpBranch "aes").finalState.exitedWith
        = Option.some 1 := by
  exact ⟨rfl, rfl⟩

/-- Claim C8 as amended: the error display helper never lets its caller
continue: whatever the state, message and command hint, it ends by calling
exit(1), so the statements following any call to it (such as the
key-reading statements after the missing-operation error) are unreachable
dead code. -/
theorem c8_displayError_always_exits (st : ProcState) (error : String)
    (command : Option String) :
    (displayError st error command).exitedWith = Option.some 1 := by
  cases command <;> rfl

/-- Witness for the amended claim C8 at the concrete cited call site. -/
theorem c8_displayError_always_exits_witness :
    (displayError initialProcState errorNoOperation
        (Option.some "aes")).exitedWith = Option.some 1 :=
  c8_displayError_always_exits initialProcState errorNoOperation
    (Option.some "aes")

/-- Claim C9: the bit length configured on the RSAsig signer would equal
the 1024 bits announced by the generation message.  The constructor call
passes the literal 2048 while the message printed when key material is
incomplete announces 1024. -/
theorem c9_bitlength_disagrees_with_message :
    rsasigSignNeedsKeygen Option.none Option.none Option.none = true
    ∧ (rsasigMakeSigner Option.none Option.none Option.none).bitLength = 2048
    ∧ rsasigKeygenMessage
        = "Generating " ++ Nat.repr rsasigAnnouncedBitLength ++ " bit RSA keys..."
    ∧ (rsasigMakeSigner Option.none Option.none Option.none).bitLength
        ≠ rsasigAnnouncedBitLength := by
  refine ⟨rfl, rfl, rfl, by decide⟩

/-- The fresh-name loop only ever returns a name that fails the existence
test: the loop exits exactly when the candidate is not an existing file. -/
theorem openFileWriteLoop_fresh (existing : List String) (extension : String) :
    ∀ (fuel : Nat) (fn opened : String),
      openFileWriteLoop existing extension fuel fn = Option.some opened →
      existing.contains opened = false := by
  intro fuel
  induction fuel with
  | zero =>
    intro fn opened h
    exact absurd h (by simp [openFileWriteLoop])
  | succ k ih =>
    intro fn opened h
    unfold openFileWriteLoop at h
    by_cases hc : existing.contains fn = true
    · rw [if_pos hc] at h
      cases hs : openFileWriteStep extension fn with
      | none => rw [hs] at h; exact absurd h (by simp)
      | some fn2 => rw [hs] at h; exact ih fn2 opened h
    · rw [if_neg hc] at h
      cases h
      exact Bool.not_eq_true _ ▸ Bool.eq_false_iff.mpr hc

/-- Claim C10: whenever the file-for-writing opener opens a name, that name
is not among the already-existing file names, so no pre-existing file is
truncated or modified. -/
theorem c10_openFileWrite_fresh (existing : List String)
    (filename extension : String) (fuel : Nat) (opened : String)
    (h : openFileWrite existing filename extension fuel = Option.some opened) :
    existing.contains opened = false := by
  unfold openFileWrite at h
  exact openFileWriteLoop_fresh existing extension fuel _ opened h

/-- Witness for claim C10: with doc.enc already on disk, the opener picks
the fresh name doc_1.enc, which is indeed not among the existing files. -/
theorem c10_openFileWrite_fresh_witness :
    List.contains ["doc.enc"] "doc_1.enc" = false :=
  c10_openFileWrite_fresh ["doc.enc"] "doc" "enc" 5 "doc_1.enc" (by rfl)

end Cryptoran
